import Mathlib

/-!
Verification of the awsTranscribeBasics repository (two Python scripts:
`transcribe_basics.py` and `make_readable.py`).

The repository's waiter classes specialize a generic polling helper
(`demo_tools.custom_waiter.CustomWaiter`) that is imported from outside the
repository; its behaviour is modelled here from the specification.  The CRUD
wrappers (`start_job`, `list_jobs`, ...) and the `make_readable.py` script are
embedded directly from the source.
-/

namespace TranscribeBasics

/-- JSON-like response structure: arbitrarily nested mappings and sequences,
as produced by the status-check client. -/
inductive Json where
  | str (s : String)
  | num (n : Int)
  | bool (b : Bool)
  | obj (fields : List (String × Json))
  | arr (items : List Json)

/-- Association lookup in a list of key-value pairs. -/
def lookupField : List (String × Json) → String → Option Json
  | [], _ => none
  | (a, v) :: rest, k => if a = k then some v else lookupField rest k

/-- Association lookup in a JSON object, the embedding of Python `d[key]` /
`d.get(key)` on a response mapping. -/
def getField : Json → String → Option Json
  | .obj fields, k => lookupField fields k
  | _, _ => none

/-- String-valued field access, used for `response.get('NextToken')`. -/
def getStr (j : Json) (k : String) : Option String :=
  match getField j k with
  | some (.str s) => some s
  | _ => none

/-- One step of a dotted field path: either a mapping key or a sequence index. -/
inductive PathStep where
  | field (name : String)
  | index (i : Nat)

/-- Splits a character list at every occurrence of a separator character. -/
def splitOnChar (c : Char) : List Char → List (List Char)
  | [] => [[]]
  | x :: xs =>
    let r := splitOnChar c xs
    if x = c then [] :: r
    else
      match r with
      | [] => [[x]]
      | y :: ys => (x :: y) :: ys

/-- Decimal digits to a natural number. -/
def charsToNat (cs : List Char) : Nat :=
  cs.foldl (fun acc c => acc * 10 + (c.toNat - 48)) 0

/-- Modelled from the spec: field-path syntax — dotted identifiers with
optional bracketed integer indices for sequence access (the extraction lives
in the external `demo_tools.custom_waiter` helper, not in this repository).
One dotted segment such as `B[0]` becomes a field step followed by index
steps. -/
def parseSeg (s : List Char) : List PathStep :=
  match splitOnChar '[' s with
  | [] => []
  | name :: idxParts =>
      PathStep.field (String.mk name)
        :: idxParts.map (fun part => PathStep.index (charsToNat part.dropLast))

/-- Modelled from the spec: a whole field path is its dot-separated segments. -/
def parsePath (p : String) : List PathStep :=
  (splitOnChar '.' p.toList).flatMap parseSeg

/-- Applies one path step to a JSON value. -/
def stepPath (j : Json) : PathStep → Option Json
  | .field name => getField j name
  | .index i =>
      match j with
      | .arr items => items.get? i
      | _ => none

/-- Walks a list of path steps through a JSON value. -/
def walkPath : Json → List PathStep → Option Json
  | j, [] => some j
  | j, st :: rest =>
      match stepPath j st with
      | some j2 => walkPath j2 rest
      | none => none

/-- Modelled from the spec: extract the status value by walking the dotted
field-path through the response structure. -/
def extractPath (j : Json) (path : String) : Option Json :=
  walkPath j (parsePath path)

/-- Outcome classification of a raw status value, as used in the waiter
construction dictionaries (`WaitState.SUCCESS` / `WaitState.FAILURE` in
`transcribe_basics.py`). -/
inductive WaitState where
  | SUCCESS
  | FAILURE
deriving DecidableEq

/-- Classification of one poll attempt, PENDING being the default for any
status value the outcome map does not mention. -/
inductive Classified where
  | success
  | failure
  | pending
deriving DecidableEq

/-- Dictionary lookup of a raw status string in the outcome map. -/
def lookupStatus (m : List (String × WaitState)) (s : String) : Option WaitState :=
  match m with
  | [] => none
  | (a, v) :: rest => if a = s then some v else lookupStatus rest s

/-- Modelled from the spec: look up the extracted value in the outcome
mapping; unmapped values (and a response the field path does not reach) are
treated as PENDING — a deliberate default, not an error. -/
def classify (m : List (String × WaitState)) : Option String → Classified
  | none => .pending
  | some s =>
      match lookupStatus m s with
      | some .SUCCESS => .success
      | some .FAILURE => .failure
      | none => .pending

/-- Immutable waiter configuration: operation name, status-check action
identifier, dotted field path locating the status value, and the raw-status
to outcome mapping. -/
structure WaitSpec where
  name : String
  action : String
  fieldPath : String
  statusMap : List (String × WaitState)

/-- Reads the raw status string out of a status-check response by walking the
spec's field path. -/
def statusOf (spec : WaitSpec) (resp : Json) : Option String :=
  match extractPath resp spec.fieldPath with
  | some (.str s) => some s
  | _ => none

/-- Transport/protocol error raised by the status-check call itself. -/
structure TransportError where
  msg : String
deriving DecidableEq

/-- Tagged wait result: Success with the final response attached, or Failure
with the last response seen (when any) and a reason string. -/
inductive WaitOutcome where
  | success (resp : Json)
  | failure (last : Option Json) (reason : String)

/-- Reason string of a timeout failure. -/
def timeoutReason : String := "timed out waiting for terminal state"

/-- Reason string when the monitored operation reports a failure status. -/
def opFailureReason : String := "operation reported failure status"

/-- Modelled from the spec: the polling loop of the external
`demo_tools.custom_waiter.CustomWaiter` helper (not part of this repository).
`client k` is the status-check call on attempt `k` (a transport error
propagates immediately).  The loop classifies each response: SUCCESS and
FAILURE return immediately, PENDING sleeps and retries until the remaining
attempt budget is exhausted, at which point a timeout Failure is returned.
The second component of the result counts the status-check queries issued. -/
def waitAux (spec : WaitSpec) (client : Nat → Except TransportError Json) :
    Nat → Option Json → Nat → Except TransportError (WaitOutcome × Nat)
  | attempt, last, 0 => .ok (.failure last timeoutReason, attempt)
  | attempt, _, remaining + 1 =>
      match client attempt with
      | .error e => .error e
      | .ok resp =>
          match classify spec.statusMap (statusOf spec resp) with
          | .success => .ok (.success resp, attempt + 1)
          | .failure => .ok (.failure (some resp) opFailureReason, attempt + 1)
          | .pending => waitAux spec client (attempt + 1) (some resp) remaining

/-- Modelled from the spec: `wait` polls from attempt 0 with a bounded attempt
budget. -/
def wait (spec : WaitSpec) (client : Nat → Except TransportError Json)
    (maxAttempts : Nat) : Except TransportError (WaitOutcome × Nat) :=
  waitAux spec client 0 none maxAttempts

/-- The `TranscribeCompleteWaiter` configuration from `transcribe_basics.py`
lines 31-44. -/
def transcribeCompleteWaiterSpec : WaitSpec :=
  { name := "TranscribeComplete"
    action := "GetTranscriptionJob"
    fieldPath := "TranscriptionJob.TranscriptionJobStatus"
    statusMap := [("COMPLETED", .SUCCESS), ("FAILED", .FAILURE)] }

/-- The `VocabularyReadyWaiter` configuration from `transcribe_basics.py`
lines 46-56. -/
def vocabularyReadyWaiterSpec : WaitSpec :=
  { name := "VocabularyReady"
    action := "GetVocabulary"
    fieldPath := "VocabularyState"
    statusMap := [("READY", .SUCCESS)] }

/-- Infrastructure-level client error (`botocore.exceptions.ClientError`)
raised by an underlying API call. -/
structure ClientError where
  code : String
deriving DecidableEq

/-- Errors a wrapper can let escape: a re-raised `ClientError`, a `KeyError`
from indexing a response mapping, a `NameError` from evaluating an unbound
name, or a non-sequence value where the code concatenates lists. -/
inductive PyErr where
  | clientError (e : ClientError)
  | keyError (k : String)
  | nameError (n : String)
  | typeError (k : String)
deriving DecidableEq

/-- Python dict assignment `d[k] = v`: replaces the value when the key is
present (keeping its position), appends otherwise. -/
def setAssoc : List (String × Json) → String → Json → List (String × Json)
  | [], k, v => [(k, v)]
  | (a, w) :: rest, k, v =>
      if a = k then (k, v) :: rest else (a, w) :: setAssoc rest k v

/-- Dict assignment on a JSON object. -/
def setField : Json → String → Json → Json
  | .obj fields, k, v => .obj (setAssoc fields k v)
  | j, _, _ => j

/-- The `job_args` request built by `start_job` (lines 79-88): default
`Settings` with speaker labels, then the whole `Settings` value re-assigned to
a vocabulary-only mapping when `vocabulary_name` is not None. -/
def start_job_args (job_name media_uri media_format language_code : String)
    (vocabulary_name : Option String) : Json :=
  let job_args : Json := .obj
    [("TranscriptionJobName", .str job_name),
     ("Media", .obj [("MediaFileUri", .str media_uri)]),
     ("MediaFormat", .str media_format),
     ("Settings", .obj [("MaxSpeakerLabels", .num 5),
                        ("ShowSpeakerLabels", .bool true)]),
     ("LanguageCode", .str language_code)]
  match vocabulary_name with
  | some v => setField job_args "Settings" (.obj [("VocabularyName", .str v)])
  | none => job_args

/-- Embedding of `start_job` (lines 58-96): builds the request, calls
`start_transcription_job`, re-raises a `ClientError` after logging, and
otherwise returns `response['TranscriptionJob']`. -/
def start_job (job_name media_uri media_format language_code : String)
    (startTranscriptionJob : Json → Except ClientError Json)
    (vocabulary_name : Option String) : Except PyErr Json :=
  match startTranscriptionJob
      (start_job_args job_name media_uri media_format language_code
        vocabulary_name) with
  | .error e => .error (.clientError e)
  | .ok response =>
      match getField response "TranscriptionJob" with
      | some job => .ok job
      | none => .error (.keyError "TranscriptionJob")

/-- The `while next_token is not None` loop of `list_jobs` (lines 111-116):
re-issues the list request with the previous `NextToken` and appends that
page's `TranscriptionJobSummaries`.  `fuel` bounds the number of loop
iterations the embedding unfolds; `none` means the loop was still running
when the fuel ran out. -/
def listJobsLoop (job_filter : String)
    (listTranscriptionJobs : String → Option String → Except ClientError Json) :
    Nat → List Json → String → Option (Except PyErr (List Json))
  | 0, _, _ => none
  | fuel + 1, jobs, tok =>
      match listTranscriptionJobs job_filter (some tok) with
      | .error e => some (.error (.clientError e))
      | .ok response =>
          match getField response "TranscriptionJobSummaries" with
          | some (.arr more) =>
              match getStr response "NextToken" with
              | some t2 => listJobsLoop job_filter listTranscriptionJobs fuel
                  (jobs ++ more) t2
              | none => some (.ok (jobs ++ more))
          | some _ => some (.error (.typeError "TranscriptionJobSummaries"))
          | none => some (.error (.keyError "TranscriptionJobSummaries"))

/-- Embedding of `list_jobs` (lines 98-125): first page without a token, then the
pagination loop while `NextToken` is present; a `ClientError` from any call is
re-raised after logging. -/
def list_jobs (job_filter : String)
    (listTranscriptionJobs : String → Option String → Except ClientError Json)
    (fuel : Nat) : Option (Except PyErr (List Json)) :=
  match listTranscriptionJobs job_filter none with
  | .error e => some (.error (.clientError e))
  | .ok response =>
      match getField response "TranscriptionJobSummaries" with
      | some (.arr jobs) =>
          match getStr response "NextToken" with
          | some t => listJobsLoop job_filter listTranscriptionJobs fuel jobs t
          | none => some (.ok jobs)
      | some _ => some (.error (.typeError "TranscriptionJobSummaries"))
      | none => some (.error (.keyError "TranscriptionJobSummaries"))

/-- Embedding of `get_job` (lines 127-142): calls `get_transcription_job`, re-raises a
`ClientError`, otherwise returns `response['TranscriptionJob']` (whose name is
also read for logging). -/
def get_job (job_name : String)
    (getTranscriptionJob : String → Except ClientError Json) :
    Except PyErr Json :=
  match getTranscriptionJob job_name with
  | .error e => .error (.clientError e)
  | .ok response =>
      match getField response "TranscriptionJob" with
      | some job => .ok job
      | none => .error (.keyError "TranscriptionJob")

/-- Embedding of `delete_job` (lines 145-159): calls `delete_transcription_job`, re-raises
a `ClientError`, returns nothing. -/
def delete_job (job_name : String)
    (deleteTranscriptionJob : String → Except ClientError Json) :
    Except PyErr Unit :=
  match deleteTranscriptionJob job_name with
  | .error e => .error (.clientError e)
  | .ok _ => .ok ()

/-- The `vocab_args` request shared by `create_vocabulary` and
`update_vocabulary`: `Phrases` when phrases are given, otherwise
`VocabularyFileUri` when a table URI is given. -/
def vocab_args (vocabulary_name language_code : String)
    (phrases : Option (List String)) (table_uri : Option String) : Json :=
  let base := [("VocabularyName", Json.str vocabulary_name),
               ("LanguageCode", Json.str language_code)]
  match phrases with
  | some ps => .obj (base ++ [("Phrases", .arr (ps.map .str))])
  | none =>
      match table_uri with
      | some uri => .obj (base ++ [("VocabularyFileUri", .str uri)])
      | none => .obj base

/-- Embedding of `create_vocabulary` (lines 162-192): builds `vocab_args`, calls
`create_vocabulary`, re-raises a `ClientError`; on success it logs
`response['VocabularyName']` (a missing key there raises a `KeyError`) and
returns the response. -/
def create_vocabulary (vocabulary_name language_code : String)
    (createVocabulary : Json → Except ClientError Json)
    (phrases : Option (List String)) (table_uri : Option String) :
    Except PyErr Json :=
  match createVocabulary
      (vocab_args vocabulary_name language_code phrases table_uri) with
  | .error e => .error (.clientError e)
  | .ok response =>
      match getField response "VocabularyName" with
      | some _ => .ok response
      | none => .error (.keyError "VocabularyName")

/-- The pagination loop of `list_vocabularies` (lines 212-218), appending each
page's `Vocabularies` while `NextToken` is present. -/
def listVocabulariesLoop (vocabulary_filter : String)
    (listVocabularies : String → Option String → Except ClientError Json) :
    Nat → List Json → String → Option (Except PyErr (List Json))
  | 0, _, _ => none
  | fuel + 1, vocabs, tok =>
      match listVocabularies vocabulary_filter (some tok) with
      | .error e => some (.error (.clientError e))
      | .ok response =>
          match getField response "Vocabularies" with
          | some (.arr more) =>
              match getStr response "NextToken" with
              | some t2 => listVocabulariesLoop vocabulary_filter
                  listVocabularies fuel (vocabs ++ more) t2
              | none => some (.ok (vocabs ++ more))
          | some _ => some (.error (.typeError "Vocabularies"))
          | none => some (.error (.keyError "Vocabularies"))

/-- Embedding of `list_vocabularies` (lines 195-226): first page without a token, then the
pagination loop; a `ClientError` is re-raised after logging. -/
def list_vocabularies (vocabulary_filter : String)
    (listVocabularies : String → Option String → Except ClientError Json)
    (fuel : Nat) : Option (Except PyErr (List Json)) :=
  match listVocabularies vocabulary_filter none with
  | .error e => some (.error (.clientError e))
  | .ok response =>
      match getField response "Vocabularies" with
      | some (.arr vocabs) =>
          match getStr response "NextToken" with
          | some t => listVocabulariesLoop vocabulary_filter listVocabularies
              fuel vocabs t
          | none => some (.ok vocabs)
      | some _ => some (.error (.typeError "Vocabularies"))
      | none => some (.error (.keyError "Vocabularies"))

/-- Embedding of `get_vocabulary` (lines 229-244): calls `get_vocabulary`, re-raises a
`ClientError`; on success logs `response['VocabularyName']` and returns the
response. -/
def get_vocabulary (vocabulary_name : String)
    (getVocabulary : String → Except ClientError Json) : Except PyErr Json :=
  match getVocabulary vocabulary_name with
  | .error e => .error (.clientError e)
  | .ok response =>
      match getField response "VocabularyName" with
      | some _ => .ok response
      | none => .error (.keyError "VocabularyName")

/-- Embedding of `update_vocabulary` (lines 247-271): builds `vocab_args`, calls
`update_vocabulary`, re-raises a `ClientError`; on success logs
`response['VocabularyName']` and returns nothing. -/
def update_vocabulary (vocabulary_name language_code : String)
    (updateVocabulary : Json → Except ClientError Json)
    (phrases : Option (List String)) (table_uri : Option String) :
    Except PyErr Unit :=
  match updateVocabulary
      (vocab_args vocabulary_name language_code phrases table_uri) with
  | .error e => .error (.clientError e)
  | .ok response =>
      match getField response "VocabularyName" with
      | some _ => .ok ()
      | none => .error (.keyError "VocabularyName")

/-- Embedding of `delete_vocabulary` (lines 274-287): calls `delete_vocabulary`, re-raises
a `ClientError`, returns nothing. -/
def delete_vocabulary (vocabulary_name : String)
    (deleteVocabulary : String → Except ClientError Json) :
    Except PyErr Unit :=
  match deleteVocabulary vocabulary_name with
  | .error e => .error (.clientError e)
  | .ok _ => .ok ()

/-- Substring test on character lists, the embedding of Python
`"json" in filename`. -/
def containsSub (needle : List Char) : List Char → Bool
  | [] => needle.isEmpty
  | c :: rest => needle.isPrefixOf (c :: rest) || containsSub needle rest

/-- The walk loop of `make_readable.py` (lines 16-24): for each file under the
base directory whose name contains the substring `json`, the script converts
`dirpath + "/" + filename` into a document saved as the same path with
`.docx` appended.  The directory tree is given as a list of
(dirpath, filenames) pairs, as `os.walk` yields it; the result lists each
(infile, outfile) pair passed to `tscribe.write`. -/
def conversionOutputs (tree : List (String × List String)) :
    List (String × String) :=
  tree.flatMap fun dp =>
    dp.2.filterMap fun filename =>
      if containsSub "json".toList filename.toList then
        some (dp.1 ++ "/" ++ filename, dp.1 ++ "/" ++ filename ++ ".docx")
      else none

/-- Names bound at module level in `make_readable.py` when line 4 runs: only
its two imports, `tscribe` and `os`. -/
def makeReadableBoundNames : List String := ["tscribe", "os"]

/-- Evaluating a name in an environment: an unbound name raises `NameError`. -/
def evalNameIn (env : List String) (n : String) : Except PyErr Unit :=
  if n ∈ env then .ok () else .error (.nameError n)

/-- Top-level execution of `make_readable.py` on a given argv and directory
tree.  Line 4 (`numargs = len(sys.argv)`) evaluates the name `sys`; when more
than one argument is present, line 9 evaluates the name `usage_demo`; only
then would the walk loop run (the no-argument branch prints a usage message
and exits before the walk). -/
def makeReadableRun (argv : List String) (tree : List (String × List String)) :
    Except PyErr (List (String × String)) :=
  match evalNameIn makeReadableBoundNames "sys" with
  | .error e => .error e
  | .ok _ =>
      if argv.length > 1 then
        match evalNameIn makeReadableBoundNames "usage_demo" with
        | .error e => .error e
        | .ok _ => .ok (conversionOutputs tree)
      else .ok []

/-- Pagination token naming page `i` of a test service. -/
def tokFor (i : Nat) : String := ⟨List.replicate i 't'⟩

/-- Page `i` of a test list service whose pages hold the given summary lists
under `key`; a `NextToken` for page `i + 1` is present exactly when more
pages remain. -/
def pageJson (key : String) (pss : List (List Json)) (i : Nat) : Json :=
  Json.obj ((key, Json.arr (pss.getD i [])) ::
    (if i + 1 < pss.length then [("NextToken", Json.str (tokFor (i + 1)))]
     else []))

/-- A test list client serving the given pages: the token-free first request
returns page 0, and the request with the token for page `i` returns page
`i`. -/
def pagesClient (key : String) (pss : List (List Json)) :
    String → Option String → Except ClientError Json :=
  fun _ tok =>
    match tok with
    | none => .ok (pageJson key pss 0)
    | some t => .ok (pageJson key pss t.length)

/-- A concrete `GetTranscriptionJob` response whose status is `COMPLETED`. -/
def respCompleted : Json :=
  Json.obj [("TranscriptionJob",
    .obj [("TranscriptionJobStatus", .str "COMPLETED")])]

/-- A concrete `GetTranscriptionJob` response whose status is `IN_PROGRESS`,
which neither waiter map mentions. -/
def respPending : Json :=
  Json.obj [("TranscriptionJob",
    .obj [("TranscriptionJobStatus", .str "IN_PROGRESS")])]

/-- A concrete `GetVocabulary` response whose status is `FAILED`, a value the
vocabulary waiter map does not mention. -/
def respVocabFailed : Json := Json.obj [("VocabularyState", .str "FAILED")]

/-- A status-check client that answers the first attempt with a pending
response and raises a transport error on every later attempt. -/
def errorOnSecondClient : Nat → Except TransportError Json :=
  fun j => if j = 0 then .ok respPending else .error ⟨"connection reset"⟩

/- ------------------------------------------------------------------ -/
/- Theorems.                                                          -/
/- ------------------------------------------------------------------ -/

/-- C1: for every waiter whose first status-check response classifies as
SUCCESS, `wait` returns a Success outcome carrying that response after
issuing exactly one status-check query. -/
theorem claim1_success_first_query (spec : WaitSpec)
    (client : Nat → Except TransportError Json) (N : Nat) (r : Json)
    (h0 : client 0 = .ok r)
    (hs : classify spec.statusMap (statusOf spec r) = .success)
    (hN : 0 < N) :
    wait spec client N = .ok (.success r, 1) := by
  cases N with
  | zero => omega
  | succ m => simp [wait, waitAux, h0, hs]

/-- Witness for C1: the transcription waiter on a client whose first response
is COMPLETED returns Success with that response after one query. -/
theorem claim1_witness :
    wait transcribeCompleteWaiterSpec (fun _ => .ok respCompleted) 3
      = .ok (.success respCompleted, 1) :=
  claim1_success_first_query transcribeCompleteWaiterSpec
    (fun _ => .ok respCompleted) 3 respCompleted rfl rfl (by decide)

/-- Helper for C2: when every query in the window classifies as PENDING, the
polling loop consumes the whole remaining budget and times out. -/
theorem waitAux_all_pending (spec : WaitSpec)
    (client : Nat → Except TransportError Json) :
    ∀ (remaining attempt : Nat) (last : Option Json),
      (∀ k, attempt ≤ k → k < attempt + remaining →
        ∃ r, client k = .ok r
          ∧ classify spec.statusMap (statusOf spec r) = .pending) →
      ∃ last2, waitAux spec client attempt last remaining
          = .ok (.failure last2 timeoutReason, attempt + remaining) := by
  intro remaining
  induction remaining with
  | zero => intro attempt last _; exact ⟨last, by simp [waitAux]⟩
  | succ m ih =>
    intro attempt last h
    obtain ⟨r, hc, hp⟩ := h attempt (le_refl _) (by omega)
    obtain ⟨last2, hl⟩ := ih (attempt + 1) (some r)
      (fun k hk1 hk2 => h k (by omega) (by omega))
    have harith : attempt + 1 + m = attempt + (m + 1) := by omega
    rw [harith] at hl
    exact ⟨last2, by simp [waitAux, hc, hp, hl]⟩

/-- C2: with an attempt budget of N and every status-check response
classifying as PENDING, `wait` issues at most N queries and returns a Failure
whose reason is the timeout reason; it never polls past its budget. -/
theorem claim2_timeout (spec : WaitSpec)
    (client : Nat → Except TransportError Json) (N : Nat)
    (h : ∀ k, k < N → ∃ r, client k = .ok r
        ∧ classify spec.statusMap (statusOf spec r) = .pending) :
    ∃ last queries, wait spec client N
        = .ok (.failure last timeoutReason, queries) ∧ queries ≤ N := by
  obtain ⟨last2, hl⟩ := waitAux_all_pending spec client N 0 none
    (fun k _ hk2 => h k (by omega))
  rw [Nat.zero_add] at hl
  exact ⟨last2, N, by simpa [wait] using hl, le_refl N⟩

/-- Witness for C2: the transcription waiter on an always-IN_PROGRESS client
with budget 4 returns a timeout Failure after at most 4 queries. -/
theorem claim2_witness :
    ∃ last queries,
      wait transcribeCompleteWaiterSpec (fun _ => .ok respPending) 4
        = .ok (.failure last timeoutReason, queries) ∧ queries ≤ 4 :=
  claim2_timeout transcribeCompleteWaiterSpec (fun _ => .ok respPending) 4
    (fun _ _ => ⟨respPending, rfl, rfl⟩)

/-- C3: a status value that is not a key of the outcome map classifies as
PENDING, and on such a response the polling loop continues with the next
attempt (one more query against a decremented budget) rather than raising or
returning, whenever budget remains. -/
theorem claim3_unmapped_is_pending :
    (∀ (m : List (String × WaitState)) (s : String),
      lookupStatus m s = none → classify m (some s) = .pending)
    ∧ ∀ (spec : WaitSpec) (client : Nat → Except TransportError Json)
        (attempt remaining : Nat) (last : Option Json) (r : Json) (s : String),
        client attempt = .ok r → statusOf spec r = some s →
        lookupStatus spec.statusMap s = none →
        waitAux spec client attempt last (remaining + 1)
          = waitAux spec client (attempt + 1) (some r) remaining := by
  constructor
  · intro m s hm; simp [classify, hm]
  · intro spec client attempt remaining last r s hc hs hm
    have hp : classify spec.statusMap (statusOf spec r) = .pending := by
      rw [hs]; simp [classify, hm]
    simp [waitAux, hc, hp]

/-- Witness for C3: FAILED is unmapped for the vocabulary waiter, classifies
as PENDING, and the loop proceeds to attempt 1 instead of stopping. -/
theorem claim3_witness :
    classify vocabularyReadyWaiterSpec.statusMap (some "FAILED") = .pending
    ∧ waitAux vocabularyReadyWaiterSpec (fun _ => .ok respVocabFailed) 0 none 2
        = waitAux vocabularyReadyWaiterSpec (fun _ => .ok respVocabFailed) 1
            (some respVocabFailed) 1 :=
  ⟨claim3_unmapped_is_pending.1 _ "FAILED" rfl,
   claim3_unmapped_is_pending.2 _ _ 0 1 none respVocabFailed "FAILED"
     rfl rfl rfl⟩

/-- Helper for C5: a transport error on the first attempt after a window of
pending responses propagates out of the polling loop. -/
theorem waitAux_error_propagates (spec : WaitSpec)
    (client : Nat → Except TransportError Json) :
    ∀ (k remaining attempt : Nat) (last : Option Json) (e : TransportError),
      (∀ j, attempt ≤ j → j < attempt + k →
        ∃ r, client j = .ok r
          ∧ classify spec.statusMap (statusOf spec r) = .pending) →
      client (attempt + k) = .error e →
      k < remaining →
      waitAux spec client attempt last remaining = .error e := by
  intro k
  induction k with
  | zero =>
    intro remaining attempt last e _ he hk
    cases remaining with
    | zero => omega
    | succ m => rw [Nat.add_zero] at he; simp [waitAux, he]
  | succ n ih =>
    intro remaining attempt last e h he hk
    cases remaining with
    | zero => omega
    | succ m =>
      obtain ⟨r, hc, hp⟩ := h attempt (le_refl _) (by omega)
      have he2 : client (attempt + 1 + n) = .error e := by
        have harith : attempt + 1 + n = attempt + (n + 1) := by omega
        rw [harith]; exact he
      have hrec := ih m (attempt + 1) (some r) e
        (fun j hj1 hj2 => h j (by omega) (by omega)) he2 (by omega)
      simp [waitAux, hc, hp, hrec]

/-- C5: a transport error raised by the status-check call on attempt k (with
k below the budget, after pending attempts) propagates out of `wait`
immediately: the result is that very error, it does not depend on what the
client would answer after attempt k, and it is distinguishable (a distinct
constructor) from every normal outcome, including operation failure and
timeout. -/
theorem claim5_transport_error (spec : WaitSpec)
    (client : Nat → Except TransportError Json) (N k : Nat)
    (e : TransportError) (hk : k < N)
    (hpre : ∀ j, j < k → ∃ r, client j = .ok r
        ∧ classify spec.statusMap (statusOf spec r) = .pending)
    (he : client k = .error e) :
    wait spec client N = .error e
    ∧ (∀ client2 : Nat → Except TransportError Json,
        (∀ j, j ≤ k → client2 j = client j) →
        wait spec client2 N = .error e)
    ∧ ∀ (o : WaitOutcome) (n : Nat),
        (Except.error e : Except TransportError (WaitOutcome × Nat))
          ≠ .ok (o, n) := by
  refine ⟨?_, ?_, fun o n h => Except.noConfusion h⟩
  · exact waitAux_error_propagates spec client k N 0 none e
      (fun j hj1 hj2 => hpre j (by omega))
      (by rw [Nat.zero_add]; exact he) hk
  · intro client2 hagree
    exact waitAux_error_propagates spec client2 k N 0 none e
      (fun j hj1 hj2 => by
        obtain ⟨r, hc, hp⟩ := hpre j (by omega)
        exact ⟨r, by rw [hagree j (by omega)]; exact hc, hp⟩)
      (by rw [Nat.zero_add, hagree k (le_refl k)]; exact he) hk

/-- Witness for C5: with budget 5, a pending first attempt and a transport
error on attempt 1, `wait` propagates the error, issues no later attempt, and
the error differs from every normal outcome. -/
theorem claim5_witness :
    wait transcribeCompleteWaiterSpec errorOnSecondClient 5
      = .error ⟨"connection reset"⟩
    ∧ (∀ client2 : Nat → Except TransportError Json,
        (∀ j, j ≤ 1 → client2 j = errorOnSecondClient j) →
        wait transcribeCompleteWaiterSpec client2 5
          = .error ⟨"connection reset"⟩)
    ∧ ∀ (o : WaitOutcome) (n : Nat),
        (Except.error ⟨"connection reset"⟩ :
          Except TransportError (WaitOutcome × Nat)) ≠ .ok (o, n) :=
  claim5_transport_error transcribeCompleteWaiterSpec errorOnSecondClient 5 1
    ⟨"connection reset"⟩ (by decide)
    (fun j hj => match j, hj with
      | 0, _ => ⟨respPending, rfl, rfl⟩
      | n + 1, h => absurd h (by omega))
    rfl

/-- C4: field-path extraction walks dotted identifiers with optional
bracketed integer indices through nested mappings and sequences; on the
response A to B to a one-element list holding C = READY with path
`A.B[0].C` it yields READY, and on a transcription response the path
`TranscriptionJob.TranscriptionJobStatus` reaches the nested status. -/
theorem claim4_field_path_extraction :
    extractPath (Json.obj [("A", .obj [("B", .arr [.obj [("C", .str "READY")]])])])
        "A.B[0].C" = some (.str "READY")
    ∧ extractPath
        (Json.obj [("TranscriptionJob",
          .obj [("TranscriptionJobStatus", .str "COMPLETED")])])
        "TranscriptionJob.TranscriptionJobStatus" = some (.str "COMPLETED") :=
  ⟨rfl, rfl⟩

/-- Counterexample for C6: the `VocabularyReadyWaiter` outcome map, exactly
as constructed in the source, classifies no status value as FAILURE. -/
theorem claim6_counterexample :
    (vocabularyReadyWaiterSpec.statusMap.any
      fun p => decide (p.2 = WaitState.FAILURE)) = false := rfl

/-- C6 (amended): both waiter maps, which are fixed constants created at
construction time and never mutated, classify at least one status value as
SUCCESS; the transcription waiter map also classifies one as FAILURE, while
the vocabulary waiter map classifies none as FAILURE. -/
theorem claim6_amended_maps :
    (transcribeCompleteWaiterSpec.statusMap.any
      fun p => decide (p.2 = WaitState.SUCCESS)) = true
    ∧ (transcribeCompleteWaiterSpec.statusMap.any
      fun p => decide (p.2 = WaitState.FAILURE)) = true
    ∧ (vocabularyReadyWaiterSpec.statusMap.any
      fun p => decide (p.2 = WaitState.SUCCESS)) = true
    ∧ (vocabularyReadyWaiterSpec.statusMap.any
      fun p => decide (p.2 = WaitState.FAILURE)) = false :=
  ⟨rfl, rfl, rfl, rfl⟩

/-- C7: every job and vocabulary CRUD wrapper re-raises a `ClientError` from
its underlying API call unchanged, never swallowing it or turning it into a
normal return value. -/
theorem claim7_client_error_propagation :
    ∀ (e : ClientError) (jn mu mf lc jf vf vn lg : String)
      (vocab : Option String) (phrases : Option (List String))
      (uri : Option String) (fuel : Nat),
      start_job jn mu mf lc (fun _ => .error e) vocab = .error (.clientError e)
      ∧ list_jobs jf (fun _ _ => .error e) fuel = some (.error (.clientError e))
      ∧ get_job jn (fun _ => .error e) = .error (.clientError e)
      ∧ delete_job jn (fun _ => .error e) = .error (.clientError e)
      ∧ create_vocabulary vn lg (fun _ => .error e) phrases uri
          = .error (.clientError e)
      ∧ list_vocabularies vf (fun _ _ => .error e) fuel
          = some (.error (.clientError e))
      ∧ get_vocabulary vn (fun _ => .error e) = .error (.clientError e)
      ∧ update_vocabulary vn lg (fun _ => .error e) phrases uri
          = .error (.clientError e)
      ∧ delete_vocabulary vn (fun _ => .error e) = .error (.clientError e) := by
  intro e jn mu mf lc jf vf vn lg vocab phrases uri fuel
  exact ⟨rfl, rfl, rfl, rfl, rfl, rfl, rfl, rfl, rfl⟩

/-- C8: evaluating `make_readable.py` raises a NameError for `sys` on line 4
before the walk loop can run, for every argv and directory tree; the walk
loop itself, taken in isolation, converts exactly the files whose names
contain `json`, writing each document beside its input with `.docx`
appended. -/
theorem claim8_make_readable :
    (∀ (argv : List String) (tree : List (String × List String)),
      makeReadableRun argv tree = .error (.nameError "sys"))
    ∧ conversionOutputs [("d", ["a.json", "b.txt"])]
        = [("d/a.json", "d/a.json.docx")] :=
  ⟨fun _ _ => rfl, rfl⟩

/-- Helper for C9: starting from the token for page i, the `list_jobs`
pagination loop returns the accumulator followed by all remaining pages in
order. -/
theorem listJobsLoop_pages (jf : String) (pss : List (List Json)) :
    ∀ (fuel i : Nat) (acc : List Json),
      i < pss.length → pss.length - i ≤ fuel →
      listJobsLoop jf (pagesClient "TranscriptionJobSummaries" pss) fuel acc
          (tokFor i)
        = some (.ok (acc ++ (pss.drop i).flatten)) := by
  intro fuel
  induction fuel with
  | zero => intro i acc hi hf; exact absurd hf (by omega)
  | succ m ih =>
    intro i acc hi hf
    have hlen : (tokFor i).length = i := by simp [tokFor, String.length]
    rcases Nat.lt_or_ge (i + 1) pss.length with hcase | hcase
    · have hstep :
          listJobsLoop jf (pagesClient "TranscriptionJobSummaries" pss) (m + 1)
              acc (tokFor i)
            = listJobsLoop jf (pagesClient "TranscriptionJobSummaries" pss) m
              (acc ++ pss.getD i []) (tokFor (i + 1)) := by
        simp [listJobsLoop, pagesClient, hlen, pageJson, getField,
          lookupField, getStr, hcase]
      rw [hstep, ih (i + 1) _ hcase (by omega),
        List.drop_eq_getElem_cons hi, List.flatten_cons,
        List.getD_eq_getElem pss [] hi, List.append_assoc]
    · have hneg : ¬ (i + 1 < pss.length) := by omega
      have hstep :
          listJobsLoop jf (pagesClient "TranscriptionJobSummaries" pss) (m + 1)
              acc (tokFor i)
            = some (.ok (acc ++ pss.getD i [])) := by
        simp [listJobsLoop, pagesClient, hlen, pageJson, getField,
          lookupField, getStr, hneg]
      rw [hstep, List.drop_eq_getElem_cons hi,
        List.drop_eq_nil_of_le (by omega : pss.length ≤ i + 1),
        List.flatten_cons, List.flatten_nil, List.append_nil,
        List.getD_eq_getElem pss [] hi]

/-- Helper for C9: the same statement for the `list_vocabularies` pagination
loop. -/
theorem listVocabulariesLoop_pages (vf : String) (pss : List (List Json)) :
    ∀ (fuel i : Nat) (acc : List Json),
      i < pss.length → pss.length - i ≤ fuel →
      listVocabulariesLoop vf (pagesClient "Vocabularies" pss) fuel acc
          (tokFor i)
        = some (.ok (acc ++ (pss.drop i).flatten)) := by
  intro fuel
  induction fuel with
  | zero => intro i acc hi hf; exact absurd hf (by omega)
  | succ m ih =>
    intro i acc hi hf
    have hlen : (tokFor i).length = i := by simp [tokFor, String.length]
    rcases Nat.lt_or_ge (i + 1) pss.length with hcase | hcase
    · have hstep :
          listVocabulariesLoop vf (pagesClient "Vocabularies" pss) (m + 1)
              acc (tokFor i)
            = listVocabulariesLoop vf (pagesClient "Vocabularies" pss) m
              (acc ++ pss.getD i []) (tokFor (i + 1)) := by
        simp [listVocabulariesLoop, pagesClient, hlen, pageJson, getField,
          lookupField, getStr, hcase]
      rw [hstep, ih (i + 1) _ hcase (by omega),
        List.drop_eq_getElem_cons hi, List.flatten_cons,
        List.getD_eq_getElem pss [] hi, List.append_assoc]
    · have hneg : ¬ (i + 1 < pss.length) := by omega
      have hstep :
          listVocabulariesLoop vf (pagesClient "Vocabularies" pss) (m + 1)
              acc (tokFor i)
            = some (.ok (acc ++ pss.getD i [])) := by
        simp [listVocabulariesLoop, pagesClient, hlen, pageJson, getField,
          lookupField, getStr, hneg]
      rw [hstep, List.drop_eq_getElem_cons hi,
        List.drop_eq_nil_of_le (by omega : pss.length ≤ i + 1),
        List.flatten_cons, List.flatten_nil, List.append_nil,
        List.getD_eq_getElem pss [] hi]

/-- C9: on a paginated service whose page i carries a NextToken exactly when
page i+1 exists, `list_jobs` and `list_vocabularies` re-issue the request
with each NextToken until a page carries none, and return the concatenation
of every page's summaries in page order. -/
theorem claim9_pagination (pss : List (List Json)) (jf vf : String)
    (fuel : Nat) (h0 : 0 < pss.length) (hf : pss.length ≤ fuel) :
    list_jobs jf (pagesClient "TranscriptionJobSummaries" pss) fuel
      = some (.ok pss.flatten)
    ∧ list_vocabularies vf (pagesClient "Vocabularies" pss) fuel
      = some (.ok pss.flatten) := by
  constructor
  · rcases Nat.lt_or_ge 1 pss.length with hcase | hcase
    · have hstep :
          list_jobs jf (pagesClient "TranscriptionJobSummaries" pss) fuel
            = listJobsLoop jf (pagesClient "TranscriptionJobSummaries" pss)
                fuel (pss.getD 0 []) (tokFor 1) := by
        simp [list_jobs, pagesClient, pageJson, getField,
          lookupField, getStr, hcase]
      rw [hstep, listJobsLoop_pages jf pss fuel 1 _ hcase
        (Nat.le_trans (Nat.sub_le _ _) hf)]
      conv_rhs => rw [← List.drop_zero pss]
      rw [List.drop_eq_getElem_cons h0, List.flatten_cons,
        List.getD_eq_getElem pss [] h0]
    · obtain ⟨a, rfl⟩ := List.length_eq_one.mp (show pss.length = 1 by omega)
      simp [list_jobs, pagesClient, pageJson, getField,
        lookupField, getStr]
  · rcases Nat.lt_or_ge 1 pss.length with hcase | hcase
    · have hstep :
          list_vocabularies vf (pagesClient "Vocabularies" pss) fuel
            = listVocabulariesLoop vf (pagesClient "Vocabularies" pss)
                fuel (pss.getD 0 []) (tokFor 1) := by
        simp [list_vocabularies, pagesClient, pageJson, getField,
          lookupField, getStr, hcase]
      rw [hstep, listVocabulariesLoop_pages vf pss fuel 1 _ hcase
        (Nat.le_trans (Nat.sub_le _ _) hf)]
      conv_rhs => rw [← List.drop_zero pss]
      rw [List.drop_eq_getElem_cons h0, List.flatten_cons,
        List.getD_eq_getElem pss [] h0]
    · obtain ⟨a, rfl⟩ := List.length_eq_one.mp (show pss.length = 1 by omega)
      simp [list_vocabularies, pagesClient, pageJson, getField,
        lookupField, getStr]

/-- Witness for C9: two pages of one summary each are concatenated in page
order by both list wrappers. -/
theorem claim9_witness :
    list_jobs "f"
        (pagesClient "TranscriptionJobSummaries"
          [[Json.str "a"], [Json.str "b"]]) 2
      = some (.ok [Json.str "a", Json.str "b"])
    ∧ list_vocabularies "g"
        (pagesClient "Vocabularies" [[Json.str "a"], [Json.str "b"]]) 2
      = some (.ok [Json.str "a", Json.str "b"]) := by
  have h := claim9_pagination [[Json.str "a"], [Json.str "b"]] "f" "g" 2
    (by decide) (by decide)
  simpa using h

/-- C10: when `start_job` is given a vocabulary name, the whole `Settings`
field of the request is replaced by a mapping holding only that vocabulary
name, dropping the speaker-label settings; without a vocabulary name the
request keeps the speaker-label settings. -/
theorem claim10_settings_replacement :
    ∀ (jn mu mf lc v : String),
      getField (start_job_args jn mu mf lc (some v)) "Settings"
        = some (.obj [("VocabularyName", .str v)])
      ∧ getField (.obj [("VocabularyName", .str v)]) "ShowSpeakerLabels" = none
      ∧ getField (.obj [("VocabularyName", .str v)]) "MaxSpeakerLabels" = none
      ∧ getField (start_job_args jn mu mf lc none) "Settings"
        = some (.obj [("MaxSpeakerLabels", .num 5),
                      ("ShowSpeakerLabels", .bool true)]) := by
  intro jn mu mf lc v
  exact ⟨rfl, rfl, rfl, rfl⟩

end TranscribeBasics
